import Mathlib

/-!
Verification development for the Atrium AI building-planning UI
(kesavaprasadarul/BKW.Hackathon).

The TypeScript sources are embedded shallowly:
- numbers become rationals;
- TS interfaces become structures with the same field names;
- a TS Record becomes an association list;
- React state updates become pure functions on the state structure;
- a fetch wrapper becomes a function of the transport response into Except.
The browser File type is kept abstract as a type parameter.
-/

/-- The seven navigation steps of the analysis flow
(AnalysisContext.tsx, type AnalysisStep). -/
inductive AnalysisStep where
  | home
  | processing
  | intermediate
  | step1
  | step2Processing
  | step2
  | report
deriving DecidableEq, Repr

/-- Step1Data (AnalysisContext.tsx). -/
structure Step1Data where
  optimizedRooms : ℚ
  totalRooms : ℚ
  improvementRate : ℚ
  confidence : ℚ
deriving DecidableEq, Repr

/-- Step2Data (AnalysisContext.tsx). -/
structure Step2Data where
  energyConsumption : ℚ
  reductionPercentage : ℚ
  annualSavings : ℚ
deriving DecidableEq, Repr

/-- RoomTypeClassificationData (AnalysisContext.tsx); identical to the
RoomTypeClassificationResponse interface of the API client. -/
structure RoomTypeClassificationData where
  processed_file : String
  report_csv : String
  output_xlsx : String
  rows : ℕ
  message : String
deriving DecidableEq, Repr

/-- PowerEstimates (AnalysisContext.tsx / API client): per-room power figures. -/
structure PowerEstimates where
  room_nr : String
  room_type : ℤ
  heating_W_per_m2 : ℚ
  cooling_W_per_m2 : ℚ
  ventilation_m3_per_h : ℚ
  area_m2 : Option ℚ
  volume_m3 : Option ℚ
deriving DecidableEq, Repr

/-- PowerRequirementsData (AnalysisContext.tsx / API client).  The TS
Record from room key to PowerEstimates is embedded as an association list. -/
structure PowerRequirementsData where
  heating_file : String
  ventilation_file : String
  merged_rows : ℕ
  merged_columns : ℕ
  power_estimates : List (String × PowerEstimates)
  performance_table : String
  message : String
deriving DecidableEq, Repr

/-- CostBOQItem (AnalysisContext.tsx / API client). -/
structure CostBOQItem where
  description : String
  subgroup_kg : Option String
  subgroup_title : Option String
  quantity : ℚ
  unit : Option String
  material_unit_price : ℚ
  total_material_price : ℚ
  total_final_price : ℚ
  bki_component_title : String
  type : Option String
deriving DecidableEq, Repr

/-- CostEstimationSummary (AnalysisContext.tsx / API client). -/
structure CostEstimationSummary where
  project_metrics : List (String × ℚ)
  grand_total_cost : ℚ
  cost_factors_applied : List (String × ℚ)
deriving DecidableEq, Repr

/-- CostEstimationData (AnalysisContext.tsx), a.k.a. CostEstimationOutput
in the API client. -/
structure CostEstimationData where
  summary : CostEstimationSummary
  detailed_boq : List CostBOQItem
deriving DecidableEq, Repr

/-- ReportGenerateResponse (API client). -/
structure ReportGenerateResponse where
  project_name : String
  file_count : ℕ
  formats_generated : List String
  pdf_path : Option String
  docx_path : Option String
  markdown_path : Option String
  message : String
deriving DecidableEq, Repr

/-- The uploadedFiles sub-object of AnalysisState: two nullable File slots.
The browser File type is abstract, hence the parameter. -/
structure UploadedFiles (F : Type) where
  file1 : Option F
  file2 : Option F
deriving DecidableEq, Repr

/-- AnalysisState (AnalysisContext.tsx). -/
structure AnalysisState (F : Type) where
  currentStep : AnalysisStep
  uploadedFiles : UploadedFiles F
  step1Completed : Bool
  step2Completed : Bool
  reportCompleted : Bool
  step1Visited : Bool
  step2Visited : Bool
  isProcessing : Bool
  step1Data : Option Step1Data
  step2Data : Option Step2Data
  roomTypeData : Option RoomTypeClassificationData
  powerRequirementsData : Option PowerRequirementsData
  costEstimationData : Option CostEstimationData
deriving DecidableEq, Repr

/-- initialState (AnalysisContext.tsx). -/
def initialState {F : Type} : AnalysisState F where
  currentStep := AnalysisStep.home
  uploadedFiles := { file1 := none, file2 := none }
  step1Completed := false
  step2Completed := false
  reportCompleted := false
  step1Visited := false
  step2Visited := false
  isProcessing := false
  step1Data := none
  step2Data := none
  roomTypeData := none
  powerRequirementsData := none
  costEstimationData := none

/-- setCurrentStep (AnalysisContext.tsx): spread of prev with currentStep. -/
def setCurrentStep {F : Type} (step : AnalysisStep) (prev : AnalysisState F) :
    AnalysisState F :=
  { prev with currentStep := step }

/-- setUploadedFiles (AnalysisContext.tsx). -/
def setUploadedFiles {F : Type} (file1 file2 : F) (prev : AnalysisState F) :
    AnalysisState F :=
  { prev with uploadedFiles := { file1 := some file1, file2 := some file2 } }

/-- markStep1Complete (AnalysisContext.tsx). -/
def markStep1Complete {F : Type} (prev : AnalysisState F) : AnalysisState F :=
  { prev with step1Completed := true }

/-- markStep2Complete (AnalysisContext.tsx). -/
def markStep2Complete {F : Type} (prev : AnalysisState F) : AnalysisState F :=
  { prev with step2Completed := true }

/-- markReportComplete (AnalysisContext.tsx). -/
def markReportComplete {F : Type} (prev : AnalysisState F) : AnalysisState F :=
  { prev with reportCompleted := true }

/-- markStep1Visited (AnalysisContext.tsx). -/
def markStep1Visited {F : Type} (prev : AnalysisState F) : AnalysisState F :=
  { prev with step1Visited := true }

/-- markStep2Visited (AnalysisContext.tsx). -/
def markStep2Visited {F : Type} (prev : AnalysisState F) : AnalysisState F :=
  { prev with step2Visited := true }

/-- setProcessing (AnalysisContext.tsx). -/
def setProcessing {F : Type} (isProcessing : Bool) (prev : AnalysisState F) :
    AnalysisState F :=
  { prev with isProcessing := isProcessing }

/-- setStep1Data (AnalysisContext.tsx). -/
def setStep1Data {F : Type} (data : Step1Data) (prev : AnalysisState F) :
    AnalysisState F :=
  { prev with step1Data := some data }

/-- setStep2Data (AnalysisContext.tsx). -/
def setStep2Data {F : Type} (data : Step2Data) (prev : AnalysisState F) :
    AnalysisState F :=
  { prev with step2Data := some data }

/-- setRoomTypeData (AnalysisContext.tsx). -/
def setRoomTypeData {F : Type} (data : RoomTypeClassificationData)
    (prev : AnalysisState F) : AnalysisState F :=
  { prev with roomTypeData := some data }

/-- setPowerRequirementsData (AnalysisContext.tsx). -/
def setPowerRequirementsData {F : Type} (data : PowerRequirementsData)
    (prev : AnalysisState F) : AnalysisState F :=
  { prev with powerRequirementsData := some data }

/-- setCostEstimationData (AnalysisContext.tsx). -/
def setCostEstimationData {F : Type} (data : CostEstimationData)
    (prev : AnalysisState F) : AnalysisState F :=
  { prev with costEstimationData := some data }

/-- resetAnalysis (AnalysisContext.tsx): setState(initialState), discarding prev. -/
def resetAnalysis {F : Type} (_prev : AnalysisState F) : AnalysisState F :=
  initialState

/-- One pie slice of the savings-breakdown chart (SavingsBreakdownChart.tsx). -/
structure SavingsSlice where
  name : String
  value : ℚ
  amount : ℚ
deriving DecidableEq, Repr

/-- The data array built by SavingsBreakdownChart from totalSavings
(SavingsBreakdownChart.tsx, lines 11-17). -/
def savingsBreakdownData (totalSavings : ℚ) : List SavingsSlice :=
  [ { name := "Raumtyp-Optimierung", value := 35, amount := totalSavings * 0.35 },
    { name := "Heizkreis-Effizienz", value := 25, amount := totalSavings * 0.25 },
    { name := "Bedarfssteuerung", value := 20, amount := totalSavings * 0.20 },
    { name := "Nachtabsenkung", value := 15, amount := totalSavings * 0.15 },
    { name := "Spitzenlast-Reduktion", value := 5, amount := totalSavings * 0.05 } ]

/-- One row of the monthly cost data fed to CombinedCostSavingsChart
(CombinedCostSavingsChart.tsx, interface CostData). -/
structure CostData where
  month : String
  standard : ℚ
  optimized : ℚ
deriving DecidableEq, Repr

/-- One row of the derived chart data with the cumulative-savings field
(CombinedCostSavingsChart.tsx, lines 28-38). -/
structure CombinedCostRow where
  month : String
  standard : ℚ
  optimized : ℚ
  cumulative : ℚ
deriving DecidableEq, Repr

/-- combinedData (CombinedCostSavingsChart.tsx, lines 28-38): each output row
copies month, standard, optimized and adds cumulative savings, a reduce of
(standard - optimized) over the slice of the input up to and including the row. -/
def combinedData (data : List CostData) : List CombinedCostRow :=
  data.mapIdx (fun index item =>
    { month := item.month
      standard := item.standard
      optimized := item.optimized
      cumulative :=
        (data.take (index + 1)).foldl
          (fun sum curr => sum + (curr.standard - curr.optimized)) 0 })

/-- Object.values of the power_estimates record: the per-room estimates in
entry order (IntermediateStepView.tsx, lines 183 and 193). -/
def powerEstimateValues (d : PowerRequirementsData) : List PowerEstimates :=
  d.power_estimates.map Prod.snd

/-- The building-level average heating rate displayed by the UI
(IntermediateStepView.tsx, lines 182-186): reduce of heating_W_per_m2 over
Object.values, divided by the number of record keys. -/
def avgHeatingRate (d : PowerRequirementsData) : ℚ :=
  ((powerEstimateValues d).foldl (fun sum room => sum + room.heating_W_per_m2) 0)
    / (d.power_estimates.length : ℚ)

/-- The building-level average ventilation rate displayed by the UI
(IntermediateStepView.tsx, lines 192-196). -/
def avgVentilationRate (d : PowerRequirementsData) : ℚ :=
  ((powerEstimateValues d).foldl (fun sum room => sum + room.ventilation_m3_per_h) 0)
    / (d.power_estimates.length : ℚ)

/-- The area-weighted building-level average heating rate described by the SPEC
sentence on aggregation (sum of rate times area over sum of areas).  This
definition follows the spec words, for comparison with the UI computation; it
is not code of the repository. -/
def areaWeightedAvgHeatingRate (d : PowerRequirementsData) : ℚ :=
  (((powerEstimateValues d).map
      (fun r => r.heating_W_per_m2 * r.area_m2.getD 0)).sum)
    / (((powerEstimateValues d).map (fun r => r.area_m2.getD 0)).sum)

/-- Simple arithmetic mean of a list of rationals (sum divided by count), the
wording of the amended aggregation claim. -/
def simpleMean (l : List ℚ) : ℚ := l.sum / (l.length : ℚ)

/-- The per-room heating rates used by the UI average. -/
def heatingRates (d : PowerRequirementsData) : List ℚ :=
  (powerEstimateValues d).map PowerEstimates.heating_W_per_m2

/-- The per-room ventilation rates used by the UI average. -/
def ventilationRates (d : PowerRequirementsData) : List ℚ :=
  (powerEstimateValues d).map PowerEstimates.ventilation_m3_per_h

/-- A concrete two-room power-requirements bundle with very different room
areas (1 and 99 square metres), used as test input. -/
def cexPowerData : PowerRequirementsData where
  heating_file := "heating.xlsx"
  ventilation_file := "ventilation.xlsx"
  merged_rows := 2
  merged_columns := 7
  power_estimates :=
    [ ("R1", { room_nr := "R1", room_type := 1, heating_W_per_m2 := 10,
               cooling_W_per_m2 := 0, ventilation_m3_per_h := 30,
               area_m2 := some 1, volume_m3 := some 3 }),
      ("R2", { room_nr := "R2", room_type := 2, heating_W_per_m2 := 100,
               cooling_W_per_m2 := 0, ventilation_m3_per_h := 60,
               area_m2 := some 99, volume_m3 := some 297 }) ]
  performance_table := "performance.xlsx"
  message := "ok"

/-- The transport response an API-client function handles after fetch: the ok
flag, the HTTP status, and the parsed JSON body.  The network itself is
external to the repository. -/
structure HttpResponse (α : Type) where
  ok : Bool
  status : ℕ
  body : α
deriving DecidableEq, Repr

/-- The message of the error thrown on a non-ok response (api.ts). -/
def httpErrorMessage (status : ℕ) : String :=
  "HTTP error! status: " ++ toString status

/-- classifyRoomTypes (api.ts, lines 86-101): POST the two files; if the
response is not ok, throw the HTTP error; otherwise return the parsed body. -/
def classifyRoomTypes {F : Type} (_excelFile _mappingFile : F)
    (response : HttpResponse RoomTypeClassificationData) :
    Except String RoomTypeClassificationData :=
  if !response.ok then Except.error (httpErrorMessage response.status)
  else Except.ok response.body

/-- generatePowerRequirements (api.ts, lines 103-118). -/
def generatePowerRequirements {F : Type} (_heatingFile _ventilationFile : F)
    (response : HttpResponse PowerRequirementsData) :
    Except String PowerRequirementsData :=
  if !response.ok then Except.error (httpErrorMessage response.status)
  else Except.ok response.body

/-- generateCostEstimate (api.ts, lines 120-134). -/
def generateCostEstimate (_powerRequirements : PowerRequirementsData)
    (response : HttpResponse CostEstimationData) :
    Except String CostEstimationData :=
  if !response.ok then Except.error (httpErrorMessage response.status)
  else Except.ok response.body

/-- generateReport (api.ts, lines 136-163). -/
def generateReport {F : Type} (_files : List F) (_projectName _formats : String)
    (response : HttpResponse ReportGenerateResponse) :
    Except String ReportGenerateResponse :=
  if !response.ok then Except.error (httpErrorMessage response.status)
  else Except.ok response.body

/-- A concrete two-month cost table used as test input. -/
def demoCostRows : List CostData :=
  [ { month := "Jan", standard := 10, optimized := 4 },
    { month := "Feb", standard := 8, optimized := 5 } ]

/-- A concrete classify response body used as test input. -/
def demoClassifyBody : RoomTypeClassificationData where
  processed_file := "p.xlsx"
  report_csv := "r.csv"
  output_xlsx := "o.xlsx"
  rows := 52
  message := "52 rows classified"

/-- Modelled from the spec: one row of the cost-factor table keyed by a
DIN-276-style subgroup; the cost-estimation service behind the cost-estimate
endpoint is backend code absent from this repository (src holds only its
client generateCostEstimate), so the table row is modelled from the
CostEstimator contract of the spec. -/
structure CostFactorEntry where
  subgroup_kg : String
  subgroup_title : String
  description : String
  unit : String
  unit_price : ℚ
  quantity_key : String
deriving DecidableEq, Repr

/-- Modelled from the spec: the project-level adjustment factors of the
CostEstimator contract (labor/installation markup, regional index,
contingency). -/
structure ProjectFactors where
  labor_markup : ℚ
  regional_index : ℚ
  contingency : ℚ
deriving DecidableEq, Repr

/-- Modelled from the spec: the combined project-level multiplier applied to a
material subtotal to obtain the final price. -/
def appliedFactor (f : ProjectFactors) : ℚ :=
  f.labor_markup * f.regional_index * f.contingency

/-- Modelled from the spec: one cost line item produced for a cost-driving
subgroup: the cost-driving quantity is selected from the aggregate project
metrics, multiplied by the subgroup unit price for the material subtotal, and
the project-level multipliers give the final price. -/
def costLineItem (metrics : List (String × ℚ)) (f : ProjectFactors)
    (e : CostFactorEntry) : CostBOQItem :=
  let qty := (metrics.lookup e.quantity_key).getD 0
  { description := e.description
    subgroup_kg := some e.subgroup_kg
    subgroup_title := some e.subgroup_title
    quantity := qty
    unit := some e.unit
    material_unit_price := e.unit_price
    total_material_price := qty * e.unit_price
    total_final_price := qty * e.unit_price * appliedFactor f
    bki_component_title := e.subgroup_title
    type := none }

/-- Modelled from the spec: the cost estimator behind the cost-estimate
endpoint; it produces one line item per subgroup of the cost-factor table and
sums all line items for the grand total. -/
def generateCostEstimateModel (metrics : List (String × ℚ)) (f : ProjectFactors)
    (table : List CostFactorEntry) : CostEstimationData :=
  let boq := table.map (costLineItem metrics f)
  { summary :=
      { project_metrics := metrics
        grand_total_cost := boq.foldl (fun acc item => acc + item.total_final_price) 0
        cost_factors_applied :=
          [ ("labor_markup", f.labor_markup),
            ("regional_index", f.regional_index),
            ("contingency", f.contingency) ] }
    detailed_boq := boq }

/-- Modelled from the spec: a room record as ingested for classification (the
RoomTypeClassifier itself is backend code absent from this repository). -/
structure RoomRecord where
  id : String
  rawName : String
  area : Option ℚ
  volume : Option ℚ
deriving DecidableEq, Repr

/-- Modelled from the spec: a canonical room type of the synonym catalog with
its benchmark values and the median room area of its bucket. -/
structure CanonicalRoomType where
  typeCode : String
  displayName : String
  synonyms : List String
  heating_W_per_m2 : ℚ
  cooling_W_per_m2 : ℚ
  ventilation_rate : ℚ
  medianArea : ℚ
deriving DecidableEq, Repr

/-- Modelled from the spec: the immutable, versioned synonym catalog. -/
structure Catalog where
  entries : List CanonicalRoomType
deriving DecidableEq, Repr

/-- Modelled from the spec: the provenance tag of a classification (lexical
match versus semantic fallback). -/
inductive Provenance where
  | lexical
  | semanticFallback
deriving DecidableEq, Repr

/-- Modelled from the spec: the per-room classification result. -/
structure ClassificationResult where
  roomId : String
  typeCode : String
  confidence : ℚ
  alternates : List (String × ℚ)
  provenance : Provenance
deriving DecidableEq, Repr

/-- The UNCLASSIFIED sentinel type code. -/
def UNCLASSIFIED : String := "UNCLASSIFIED"

/-- Modelled from the spec: name normalization (case-fold, strip characters
that are neither alphanumeric nor spaces). -/
def normalizeName (s : String) : List Char :=
  (s.data.map Char.toLower).filter (fun c => c.isAlphanum ∨ c = ' ')

/-- Split a character list at spaces. -/
def splitAtSpaces (l : List Char) : List (List Char) :=
  l.foldr
    (fun c acc =>
      match acc with
      | [] => if c = ' ' then [[]] else [[c]]
      | t :: ts => if c = ' ' then [] :: (t :: ts) else (c :: t) :: ts)
    []

/-- Modelled from the spec: tokenization of a normalized name. -/
def tokenize (s : String) : List (List Char) :=
  (splitAtSpaces (normalizeName s)).filter (fun t => t ≠ [])

/-- Modelled from the spec: the approximate string-similarity metric, a
normalized token overlap. -/
def tokenOverlapScore (a b : String) : ℚ :=
  let ta := tokenize a
  let tb := tokenize b
  let common := (ta.filter (fun t => t ∈ tb)).length
  let total := max ta.length tb.length
  if total = 0 then 0 else mkRat (common : ℤ) total

/-- Modelled from the spec: the score of a room name against one synonym:
1 for an exact normalized match, else the approximate similarity. -/
def synonymScore (roomName syn : String) : ℚ :=
  if normalizeName roomName = normalizeName syn then 1
  else tokenOverlapScore roomName syn

/-- Modelled from the spec: the lexical score of a room name against a catalog
entry is the best score over its synonyms. -/
def entryScore (roomName : String) (e : CanonicalRoomType) : ℚ :=
  (e.synonyms.map (synonymScore roomName)).foldl max 0

/-- Modelled from the spec: the distance between a room area and the median
area of a candidate type bucket, used for tie-breaking. -/
def areaDistance (room : RoomRecord) (e : CanonicalRoomType) : ℚ :=
  |e.medianArea - room.area.getD 0|

/-- Modelled from the spec: the deterministic preference order between two
candidates: higher score first; on equal scores the closer area bucket; on
equal distances the lexicographically smaller type code. -/
def beats (room : RoomRecord) (challenger incumbent : CanonicalRoomType) : Bool :=
  let sc := entryScore room.rawName challenger
  let si := entryScore room.rawName incumbent
  if sc > si then true
  else if sc = si then
    let dc := areaDistance room challenger
    let di := areaDistance room incumbent
    if dc < di then true
    else if dc = di then decide (challenger.typeCode < incumbent.typeCode)
    else false
  else false

/-- Modelled from the spec: select the best catalog entry for a room under the
deterministic preference order. -/
def bestEntry (room : RoomRecord) (entries : List CanonicalRoomType) :
    Option CanonicalRoomType :=
  entries.foldl
    (fun best e =>
      match best with
      | none => some e
      | some b => if beats room e b then some e else some b)
    none

/-- Modelled from the spec: the injected semantic disambiguation capability:
rank a room name against candidate type codes, returning a ranked list of
type codes with confidences, or none on timeout or error. -/
def SemanticFallback : Type :=
  String → List String → Option (List (String × ℚ))

/-- Modelled from the spec: the classifier configuration: the lexical
confidence threshold and the number of candidates handed to the fallback,
configurable rather than hard-coded. -/
structure ClassifierConfig where
  threshold : ℚ
  topN : ℕ
deriving DecidableEq, Repr

/-- Modelled from the spec: classify one room: score every catalog entry,
take the best lexical candidate; below the threshold consult the semantic
fallback and use its top answer when its confidence exceeds the lexical one;
with no lexical match at all emit UNCLASSIFIED with confidence 0. -/
def classifyRoom (cfg : ClassifierConfig) (fb : SemanticFallback)
    (catalog : Catalog) (room : RoomRecord) : ClassificationResult :=
  let scored := catalog.entries.map (fun e => (e, entryScore room.rawName e))
  match bestEntry room catalog.entries with
  | none =>
      { roomId := room.id, typeCode := UNCLASSIFIED, confidence := 0,
        alternates := [], provenance := Provenance.lexical }
  | some best =>
      let bestScore := entryScore room.rawName best
      let alternates := scored.map (fun p => (p.1.typeCode, p.2))
      if bestScore = 0 then
        { roomId := room.id, typeCode := UNCLASSIFIED, confidence := 0,
          alternates := alternates, provenance := Provenance.lexical }
      else if cfg.threshold ≤ bestScore then
        { roomId := room.id, typeCode := best.typeCode, confidence := bestScore,
          alternates := alternates, provenance := Provenance.lexical }
      else
        match fb room.rawName ((scored.map (fun p => p.1.typeCode)).take cfg.topN) with
        | some ((code, conf) :: _) =>
            if bestScore < conf then
              { roomId := room.id, typeCode := code, confidence := conf,
                alternates := alternates, provenance := Provenance.semanticFallback }
            else
              { roomId := room.id, typeCode := best.typeCode, confidence := bestScore,
                alternates := alternates, provenance := Provenance.lexical }
        | _ =>
            { roomId := room.id, typeCode := best.typeCode, confidence := bestScore,
              alternates := alternates, provenance := Provenance.lexical }

/-- Modelled from the spec: classify an ordered sequence of room records into a
same-length, same-order sequence of classification results. -/
def classifyRooms (cfg : ClassifierConfig) (fb : SemanticFallback)
    (catalog : Catalog) (rooms : List RoomRecord) : List ClassificationResult :=
  rooms.map (classifyRoom cfg fb catalog)

/-- Modelled from the spec: the row count reported by the classify operation is
the number of per-room results. -/
def classifyRows (results : List ClassificationResult) : ℕ :=
  results.length

/-- The number of per-room results that fell back to UNCLASSIFIED. -/
def countUnclassified (results : List ClassificationResult) : ℕ :=
  (results.filter (fun r => r.typeCode = UNCLASSIFIED)).length

/-- The number of per-room results with a confident (non-UNCLASSIFIED) type. -/
def countConfident (results : List ClassificationResult) : ℕ :=
  (results.filter (fun r => r.typeCode ≠ UNCLASSIFIED)).length

/-- A concrete one-entry catalog used as test input. -/
def demoCatalog : Catalog where
  entries :=
    [ { typeCode := "001", displayName := "Office",
        synonyms := ["Buero", "Office"],
        heating_W_per_m2 := 45, cooling_W_per_m2 := 30, ventilation_rate := 2,
        medianArea := 20 } ]

/-- A stubbed semantic-fallback capability that always declines. -/
def stubFallback : SemanticFallback := fun _ _ => none

/-- A concrete classifier configuration used as test input. -/
def demoConfig : ClassifierConfig where
  threshold := mkRat 1 2
  topN := 3

/-- A concrete room whose name exactly matches a registered synonym. -/
def officeRoom : RoomRecord where
  id := "O"
  rawName := "Office"
  area := some 20
  volume := some 60

/-- A concrete room with no synonym match at all. -/
def unknownRoom : RoomRecord where
  id := "U"
  rawName := "zzz"
  area := none
  volume := none

/-- A concrete 52-room book: 47 rooms resolving via synonym match and 5 rooms
with no match. -/
def demoRooms52 : List RoomRecord :=
  List.replicate 47 officeRoom ++ List.replicate 5 unknownRoom

/-- Claim C8: every single-field setter of the analysis state updates exactly its
own field of AnalysisState and leaves every other field unchanged, and
resetAnalysis restores the full initial state (currentStep home, no uploaded
files, no step completed or visited, not processing, all result data null). -/
theorem analysisState_setters_frame {F : Type} :
    (∀ (s : AnalysisState F) (v : AnalysisStep),
      (setCurrentStep v s).currentStep = v ∧
      (setCurrentStep v s).uploadedFiles = s.uploadedFiles ∧
      (setCurrentStep v s).step1Completed = s.step1Completed ∧
      (setCurrentStep v s).step2Completed = s.step2Completed ∧
      (setCurrentStep v s).reportCompleted = s.reportCompleted ∧
      (setCurrentStep v s).step1Visited = s.step1Visited ∧
      (setCurrentStep v s).step2Visited = s.step2Visited ∧
      (setCurrentStep v s).isProcessing = s.isProcessing ∧
      (setCurrentStep v s).step1Data = s.step1Data ∧
      (setCurrentStep v s).step2Data = s.step2Data ∧
      (setCurrentStep v s).roomTypeData = s.roomTypeData ∧
      (setCurrentStep v s).powerRequirementsData = s.powerRequirementsData ∧
      (setCurrentStep v s).costEstimationData = s.costEstimationData) ∧
    (∀ (s : AnalysisState F) (v : Bool),
      (setProcessing v s).isProcessing = v ∧
      (setProcessing v s).currentStep = s.currentStep ∧
      (setProcessing v s).uploadedFiles = s.uploadedFiles ∧
      (setProcessing v s).step1Completed = s.step1Completed ∧
      (setProcessing v s).step2Completed = s.step2Completed ∧
      (setProcessing v s).reportCompleted = s.reportCompleted ∧
      (setProcessing v s).step1Visited = s.step1Visited ∧
      (setProcessing v s).step2Visited = s.step2Visited ∧
      (setProcessing v s).step1Data = s.step1Data ∧
      (setProcessing v s).step2Data = s.step2Data ∧
      (setProcessing v s).roomTypeData = s.roomTypeData ∧
      (setProcessing v s).powerRequirementsData = s.powerRequirementsData ∧
      (setProcessing v s).costEstimationData = s.costEstimationData) ∧
    (∀ (s : AnalysisState F) (v : Step1Data),
      (setStep1Data v s).step1Data = some v ∧
      (setStep1Data v s).currentStep = s.currentStep ∧
      (setStep1Data v s).uploadedFiles = s.uploadedFiles ∧
      (setStep1Data v s).step1Completed = s.step1Completed ∧
      (setStep1Data v s).step2Completed = s.step2Completed ∧
      (setStep1Data v s).reportCompleted = s.reportCompleted ∧
      (setStep1Data v s).step1Visited = s.step1Visited ∧
      (setStep1Data v s).step2Visited = s.step2Visited ∧
      (setStep1Data v s).isProcessing = s.isProcessing ∧
      (setStep1Data v s).step2Data = s.step2Data ∧
      (setStep1Data v s).roomTypeData = s.roomTypeData ∧
      (setStep1Data v s).powerRequirementsData = s.powerRequirementsData ∧
      (setStep1Data v s).costEstimationData = s.costEstimationData) ∧
    (∀ (s : AnalysisState F) (v : Step2Data),
      (setStep2Data v s).step2Data = some v ∧
      (setStep2Data v s).currentStep = s.currentStep ∧
      (setStep2Data v s).uploadedFiles = s.uploadedFiles ∧
      (setStep2Data v s).step1Completed = s.step1Completed ∧
      (setStep2Data v s).step2Completed = s.step2Completed ∧
      (setStep2Data v s).reportCompleted = s.reportCompleted ∧
      (setStep2Data v s).step1Visited = s.step1Visited ∧
      (setStep2Data v s).step2Visited = s.step2Visited ∧
      (setStep2Data v s).isProcessing = s.isProcessing ∧
      (setStep2Data v s).step1Data = s.step1Data ∧
      (setStep2Data v s).roomTypeData = s.roomTypeData ∧
      (setStep2Data v s).powerRequirementsData = s.powerRequirementsData ∧
      (setStep2Data v s).costEstimationData = s.costEstimationData) ∧
    (∀ (s : AnalysisState F) (v : RoomTypeClassificationData),
      (setRoomTypeData v s).roomTypeData = some v ∧
      (setRoomTypeData v s).currentStep = s.currentStep ∧
      (setRoomTypeData v s).uploadedFiles = s.uploadedFiles ∧
      (setRoomTypeData v s).step1Completed = s.step1Completed ∧
      (setRoomTypeData v s).step2Completed = s.step2Completed ∧
      (setRoomTypeData v s).reportCompleted = s.reportCompleted ∧
      (setRoomTypeData v s).step1Visited = s.step1Visited ∧
      (setRoomTypeData v s).step2Visited = s.step2Visited ∧
      (setRoomTypeData v s).isProcessing = s.isProcessing ∧
      (setRoomTypeData v s).step1Data = s.step1Data ∧
      (setRoomTypeData v s).step2Data = s.step2Data ∧
      (setRoomTypeData v s).powerRequirementsData = s.powerRequirementsData ∧
      (setRoomTypeData v s).costEstimationData = s.costEstimationData) ∧
    (∀ (s : AnalysisState F) (v : PowerRequirementsData),
      (setPowerRequirementsData v s).powerRequirementsData = some v ∧
      (setPowerRequirementsData v s).currentStep = s.currentStep ∧
      (setPowerRequirementsData v s).uploadedFiles = s.uploadedFiles ∧
      (setPowerRequirementsData v s).step1Completed = s.step1Completed ∧
      (setPowerRequirementsData v s).step2Completed = s.step2Completed ∧
      (setPowerRequirementsData v s).reportCompleted = s.reportCompleted ∧
      (setPowerRequirementsData v s).step1Visited = s.step1Visited ∧
      (setPowerRequirementsData v s).step2Visited = s.step2Visited ∧
      (setPowerRequirementsData v s).isProcessing = s.isProcessing ∧
      (setPowerRequirementsData v s).step1Data = s.step1Data ∧
      (setPowerRequirementsData v s).step2Data = s.step2Data ∧
      (setPowerRequirementsData v s).roomTypeData = s.roomTypeData ∧
      (setPowerRequirementsData v s).costEstimationData = s.costEstimationData) ∧
    (∀ (s : AnalysisState F) (v : CostEstimationData),
      (setCostEstimationData v s).costEstimationData = some v ∧
      (setCostEstimationData v s).currentStep = s.currentStep ∧
      (setCostEstimationData v s).uploadedFiles = s.uploadedFiles ∧
      (setCostEstimationData v s).step1Completed = s.step1Completed ∧
      (setCostEstimationData v s).step2Completed = s.step2Completed ∧
      (setCostEstimationData v s).reportCompleted = s.reportCompleted ∧
      (setCostEstimationData v s).step1Visited = s.step1Visited ∧
      (setCostEstimationData v s).step2Visited = s.step2Visited ∧
      (setCostEstimationData v s).isProcessing = s.isProcessing ∧
      (setCostEstimationData v s).step1Data = s.step1Data ∧
      (setCostEstimationData v s).step2Data = s.step2Data ∧
      (setCostEstimationData v s).roomTypeData = s.roomTypeData ∧
      (setCostEstimationData v s).powerRequirementsData = s.powerRequirementsData) ∧
    (∀ (s : AnalysisState F),
      (markStep1Complete s).step1Completed = true ∧
      (markStep1Complete s).currentStep = s.currentStep ∧
      (markStep1Complete s).uploadedFiles = s.uploadedFiles ∧
      (markStep1Complete s).step2Completed = s.step2Completed ∧
      (markStep1Complete s).reportCompleted = s.reportCompleted ∧
      (markStep1Complete s).step1Visited = s.step1Visited ∧
      (markStep1Complete s).step2Visited = s.step2Visited ∧
      (markStep1Complete s).isProcessing = s.isProcessing ∧
      (markStep1Complete s).step1Data = s.step1Data ∧
      (markStep1Complete s).step2Data = s.step2Data ∧
      (markStep1Complete s).roomTypeData = s.roomTypeData ∧
      (markStep1Complete s).powerRequirementsData = s.powerRequirementsData ∧
      (markStep1Complete s).costEstimationData = s.costEstimationData) ∧
    (∀ (s : AnalysisState F),
      (markStep2Complete s).step2Completed = true ∧
      (markStep2Complete s).currentStep = s.currentStep ∧
      (markStep2Complete s).uploadedFiles = s.uploadedFiles ∧
      (markStep2Complete s).step1Completed = s.step1Completed ∧
      (markStep2Complete s).reportCompleted = s.reportCompleted ∧
      (markStep2Complete s).step1Visited = s.step1Visited ∧
      (markStep2Complete s).step2Visited = s.step2Visited ∧
      (markStep2Complete s).isProcessing = s.isProcessing ∧
      (markStep2Complete s).step1Data = s.step1Data ∧
      (markStep2Complete s).step2Data = s.step2Data ∧
      (markStep2Complete s).roomTypeData = s.roomTypeData ∧
      (markStep2Complete s).powerRequirementsData = s.powerRequirementsData ∧
      (markStep2Complete s).costEstimationData = s.costEstimationData) ∧
    (∀ (s : AnalysisState F),
      (markReportComplete s).reportCompleted = true ∧
      (markReportComplete s).currentStep = s.currentStep ∧
      (markReportComplete s).uploadedFiles = s.uploadedFiles ∧
      (markReportComplete s).step1Completed = s.step1Completed ∧
      (markReportComplete s).step2Completed = s.step2Completed ∧
      (markReportComplete s).step1Visited = s.step1Visited ∧
      (markReportComplete s).step2Visited = s.step2Visited ∧
      (markReportComplete s).isProcessing = s.isProcessing ∧
      (markReportComplete s).step1Data = s.step1Data ∧
      (markReportComplete s).step2Data = s.step2Data ∧
      (markReportComplete s).roomTypeData = s.roomTypeData ∧
      (markReportComplete s).powerRequirementsData = s.powerRequirementsData ∧
      (markReportComplete s).costEstimationData = s.costEstimationData) ∧
    (∀ (s : AnalysisState F),
      (markStep1Visited s).step1Visited = true ∧
      (markStep1Visited s).currentStep = s.currentStep ∧
      (markStep1Visited s).uploadedFiles = s.uploadedFiles ∧
      (markStep1Visited s).step1Completed = s.step1Completed ∧
      (markStep1Visited s).step2Completed = s.step2Completed ∧
      (markStep1Visited s).reportCompleted = s.reportCompleted ∧
      (markStep1Visited s).step2Visited = s.step2Visited ∧
      (markStep1Visited s).isProcessing = s.isProcessing ∧
      (markStep1Visited s).step1Data = s.step1Data ∧
      (markStep1Visited s).step2Data = s.step2Data ∧
      (markStep1Visited s).roomTypeData = s.roomTypeData ∧
      (markStep1Visited s).powerRequirementsData = s.powerRequirementsData ∧
      (markStep1Visited s).costEstimationData = s.costEstimationData) ∧
    (∀ (s : AnalysisState F),
      (markStep2Visited s).step2Visited = true ∧
      (markStep2Visited s).currentStep = s.currentStep ∧
      (markStep2Visited s).uploadedFiles = s.uploadedFiles ∧
      (markStep2Visited s).step1Completed = s.step1Completed ∧
      (markStep2Visited s).step2Completed = s.step2Completed ∧
      (markStep2Visited s).reportCompleted = s.reportCompleted ∧
      (markStep2Visited s).step1Visited = s.step1Visited ∧
      (markStep2Visited s).isProcessing = s.isProcessing ∧
      (markStep2Visited s).step1Data = s.step1Data ∧
      (markStep2Visited s).step2Data = s.step2Data ∧
      (markStep2Visited s).roomTypeData = s.roomTypeData ∧
      (markStep2Visited s).powerRequirementsData = s.powerRequirementsData ∧
      (markStep2Visited s).costEstimationData = s.costEstimationData) ∧
    (∀ (s : AnalysisState F),
      (resetAnalysis s).currentStep = AnalysisStep.home ∧
      (resetAnalysis s).uploadedFiles.file1 = none ∧
      (resetAnalysis s).uploadedFiles.file2 = none ∧
      (resetAnalysis s).step1Completed = false ∧
      (resetAnalysis s).step2Completed = false ∧
      (resetAnalysis s).reportCompleted = false ∧
      (resetAnalysis s).step1Visited = false ∧
      (resetAnalysis s).step2Visited = false ∧
      (resetAnalysis s).isProcessing = false ∧
      (resetAnalysis s).step1Data = none ∧
      (resetAnalysis s).step2Data = none ∧
      (resetAnalysis s).roomTypeData = none ∧
      (resetAnalysis s).powerRequirementsData = none ∧
      (resetAnalysis s).costEstimationData = none) := by
  refine ⟨?_, ?_, ?_, ?_, ?_, ?_, ?_, ?_, ?_, ?_, ?_, ?_, ?_⟩ <;>
    intros <;> repeat' constructor

/-- Claim C10: the savings-breakdown chart data has exactly five categories with
percentage shares 35, 25, 20, 15, 5 summing to 100; the monetary amounts are
those percentages of totalSavings, sum to totalSavings exactly, and each amount
scales linearly in totalSavings. -/
theorem savingsBreakdownData_spec (t : ℚ) :
    (savingsBreakdownData t).length = 5 ∧
    (savingsBreakdownData t).map SavingsSlice.value = [35, 25, 20, 15, 5] ∧
    ((savingsBreakdownData t).map SavingsSlice.value).sum = 100 ∧
    ((savingsBreakdownData t).map SavingsSlice.amount).sum = t ∧
    ∀ c : ℚ, (savingsBreakdownData (c * t)).map SavingsSlice.amount
        = ((savingsBreakdownData t).map SavingsSlice.amount).map (fun a => c * a) := by
  refine ⟨rfl, rfl, by norm_num [savingsBreakdownData], ?_, ?_⟩
  · simp only [savingsBreakdownData, List.map_cons, List.map_nil, List.sum_cons,
      List.sum_nil]
    ring
  · intro c
    simp [savingsBreakdownData, mul_assoc]

/-- Folding addition of a projection over a list equals the initial value plus
the sum of the mapped list. -/
theorem foldl_add_map_eq_sum {α : Type} (f : α → ℚ) (l : List α) (a : ℚ) :
    l.foldl (fun s x => s + f x) a = a + (l.map f).sum := by
  induction l generalizing a with
  | nil => simp
  | cons x xs ih => simp [ih, add_assoc]

/-- The UI average heating rate is the simple mean of the per-room heating
rates. -/
theorem avgHeatingRate_eq (d : PowerRequirementsData) :
    avgHeatingRate d = simpleMean (heatingRates d) := by
  unfold avgHeatingRate simpleMean heatingRates
  rw [foldl_add_map_eq_sum, zero_add]
  simp [powerEstimateValues]

/-- The UI average ventilation rate is the simple mean of the per-room
ventilation rates. -/
theorem avgVentilationRate_eq (d : PowerRequirementsData) :
    avgVentilationRate d = simpleMean (ventilationRates d) := by
  unfold avgVentilationRate simpleMean ventilationRates
  rw [foldl_add_map_eq_sum, zero_add]
  simp [powerEstimateValues]

/-- A lower bound of every element of a non-empty list bounds its simple mean
from below. -/
theorem le_simpleMean (l : List ℚ) (lo : ℚ) (hne : l ≠ [])
    (hb : ∀ x ∈ l, lo ≤ x) : lo ≤ simpleMean l := by
  have hlen : (0 : ℚ) < (l.length : ℚ) := by
    have h0 : 0 < l.length := List.length_pos.mpr hne
    exact_mod_cast h0
  rw [simpleMean, le_div_iff₀ hlen]
  have h1 := List.card_nsmul_le_sum l lo hb
  rwa [nsmul_eq_mul, mul_comm] at h1

/-- An upper bound of every element of a non-empty list bounds its simple mean
from above. -/
theorem simpleMean_le (l : List ℚ) (hi : ℚ) (hne : l ≠ [])
    (hb : ∀ x ∈ l, x ≤ hi) : simpleMean l ≤ hi := by
  have hlen : (0 : ℚ) < (l.length : ℚ) := by
    have h0 : 0 < l.length := List.length_pos.mpr hne
    exact_mod_cast h0
  rw [simpleMean, div_le_iff₀ hlen]
  have h1 := List.sum_le_card_nsmul l hi hb
  rwa [nsmul_eq_mul, mul_comm] at h1

/-- Claim C9: the derived combined sequence has the same length as the input,
copies month, standard and optimized unchanged, and its cumulative field at
index i is the sum over indices 0..i of (standard - optimized); equivalently
cumulative at 0 is standard - optimized there, and cumulative at i+1 is
cumulative at i plus (standard - optimized) at i+1. -/
theorem combinedData_spec (data : List CostData) :
    (combinedData data).length = data.length ∧
    (∀ i (h : i < data.length) (h2 : i < (combinedData data).length),
      ((combinedData data).get ⟨i, h2⟩).month = (data.get ⟨i, h⟩).month ∧
      ((combinedData data).get ⟨i, h2⟩).standard = (data.get ⟨i, h⟩).standard ∧
      ((combinedData data).get ⟨i, h2⟩).optimized = (data.get ⟨i, h⟩).optimized ∧
      ((combinedData data).get ⟨i, h2⟩).cumulative
        = ((data.take (i + 1)).map (fun c => c.standard - c.optimized)).sum) ∧
    (∀ (h : 0 < data.length) (h2 : 0 < (combinedData data).length),
      ((combinedData data).get ⟨0, h2⟩).cumulative
        = (data.get ⟨0, h⟩).standard - (data.get ⟨0, h⟩).optimized) ∧
    (∀ i (h : i + 1 < data.length) (h1 : i < (combinedData data).length)
        (h2 : i + 1 < (combinedData data).length),
      ((combinedData data).get ⟨i + 1, h2⟩).cumulative
        = ((combinedData data).get ⟨i, h1⟩).cumulative
          + ((data.get ⟨i + 1, h⟩).standard - (data.get ⟨i + 1, h⟩).optimized)) := by
  have key : ∀ i (h : i < data.length) (h2 : i < (combinedData data).length),
      ((combinedData data).get ⟨i, h2⟩).month = (data.get ⟨i, h⟩).month ∧
      ((combinedData data).get ⟨i, h2⟩).standard = (data.get ⟨i, h⟩).standard ∧
      ((combinedData data).get ⟨i, h2⟩).optimized = (data.get ⟨i, h⟩).optimized ∧
      ((combinedData data).get ⟨i, h2⟩).cumulative
        = ((data.take (i + 1)).map (fun c => c.standard - c.optimized)).sum := by
    intro i h h2
    simp only [combinedData, List.get_eq_getElem, List.getElem_mapIdx]
    refine ⟨trivial, trivial, trivial, ?_⟩
    rw [foldl_add_map_eq_sum, zero_add]
  refine ⟨by simp [combinedData], key, ?_, ?_⟩
  · intro h h2
    rw [(key 0 h h2).2.2.2]
    cases data with
    | nil => simp at h
    | cons x xs => simp
  · intro i h h1 h2
    rw [(key (i + 1) h h2).2.2.2, (key i (Nat.lt_of_succ_lt h) h1).2.2.2]
    rw [List.map_take, List.map_take]
    have hlen : i + 1 < (data.map (fun c => c.standard - c.optimized)).length := by
      simpa using h
    rw [List.sum_take_succ _ _ hlen]
    simp

/-- Claim C9 witness: evaluating the cumulative recurrence on a concrete
two-month table. -/
theorem combinedData_spec_witness :
    ((combinedData demoCostRows).get
        ⟨1, by simp [combinedData, demoCostRows]⟩).cumulative
      = ((combinedData demoCostRows).get
          ⟨0, by simp [combinedData, demoCostRows]⟩).cumulative
        + ((demoCostRows.get ⟨1, by simp [demoCostRows]⟩).standard
           - (demoCostRows.get ⟨1, by simp [demoCostRows]⟩).optimized) :=
  (combinedData_spec demoCostRows).2.2.2 0 (by simp [demoCostRows])
    (by simp [combinedData, demoCostRows]) (by simp [combinedData, demoCostRows])

/-- Claim C1 counterexample: at the concrete two-room input cexPowerData with
areas 1 and 99, the building-level average heating rate computed by the UI is
the simple mean 55, not the area-weighted average 991/10, so building-level
averages are not weighted by area. -/
theorem avgHeatingRate_not_area_weighted :
    avgHeatingRate cexPowerData ≠ areaWeightedAvgHeatingRate cexPowerData ∧
    avgHeatingRate cexPowerData = 55 ∧
    areaWeightedAvgHeatingRate cexPowerData = 991 / 10 := by
  norm_num [avgHeatingRate, areaWeightedAvgHeatingRate, powerEstimateValues,
    cexPowerData]

/-- Claim C1 (amended): for every non-empty map of per-room power estimates, the
building-level average heating rate and average ventilation rate are computed
as simple arithmetic means across rooms (sum of the per-room rates divided by
the room count), not weighted by area or volume. -/
theorem avgRates_are_simple_means (d : PowerRequirementsData)
    (_h : d.power_estimates ≠ []) :
    avgHeatingRate d = simpleMean (heatingRates d) ∧
    avgVentilationRate d = simpleMean (ventilationRates d) :=
  ⟨avgHeatingRate_eq d, avgVentilationRate_eq d⟩

/-- Claim C1 (amended) witness: the simple-mean equations evaluated at the
concrete two-room input. -/
theorem avgRates_simple_means_witness :
    avgHeatingRate cexPowerData = simpleMean (heatingRates cexPowerData) ∧
    avgVentilationRate cexPowerData = simpleMean (ventilationRates cexPowerData) :=
  avgRates_are_simple_means cexPowerData (by simp [cexPowerData])

/-- Claim C5: for every non-empty map of per-room power estimates, the
building-level average heating rate lies within the closed interval bounded by
the minimum and the maximum of the per-room heating rates actually used in the
computation. -/
theorem avgHeatingRate_between_min_max (d : PowerRequirementsData)
    (h : d.power_estimates ≠ []) (lo hi : ℚ)
    (hlo : (heatingRates d).min? = some lo)
    (hhi : (heatingRates d).max? = some hi) :
    lo ≤ avgHeatingRate d ∧ avgHeatingRate d ≤ hi := by
  have hne : heatingRates d ≠ [] := by
    intro hmap
    have hlen0 := congrArg List.length hmap
    simp [heatingRates, powerEstimateValues] at hlen0
    exact h hlen0
  have hb1 : ∀ x ∈ heatingRates d, lo ≤ x :=
    (List.le_min?_iff (fun a b c => le_min_iff) hlo).1 (le_refl lo)
  have hb2 : ∀ x ∈ heatingRates d, x ≤ hi :=
    (List.max?_le_iff (fun a b c => max_le_iff) hhi).1 (le_refl hi)
  rw [avgHeatingRate_eq]
  exact ⟨le_simpleMean _ lo hne hb1, simpleMean_le _ hi hne hb2⟩

/-- Claim C5 witness: at the concrete two-room input the average 55 lies
between the minimum 10 and maximum 100 of the per-room heating rates. -/
theorem avgHeatingRate_between_witness :
    (10 : ℚ) ≤ avgHeatingRate cexPowerData ∧ avgHeatingRate cexPowerData ≤ 100 :=
  avgHeatingRate_between_min_max cexPowerData (by simp [cexPowerData]) 10 100
    (by decide) (by decide)

/-- Claim C3: each of the four pipeline operations (classify, estimate power,
estimate cost, generate report) either returns the complete result bundle or
fails with the single HTTP error naming the response status as the fatal
reason; no other outcome is possible. -/
theorem pipeline_ops_complete_or_single_error {F : Type} :
    (∀ (e m : F) (r : HttpResponse RoomTypeClassificationData),
      (∃ bundle, classifyRoomTypes e m r = Except.ok bundle) ∨
      (∃ status, classifyRoomTypes e m r = Except.error (httpErrorMessage status))) ∧
    (∀ (a b : F) (r : HttpResponse PowerRequirementsData),
      (∃ bundle, generatePowerRequirements a b r = Except.ok bundle) ∨
      (∃ status, generatePowerRequirements a b r = Except.error (httpErrorMessage status))) ∧
    (∀ (p : PowerRequirementsData) (r : HttpResponse CostEstimationData),
      (∃ bundle, generateCostEstimate p r = Except.ok bundle) ∨
      (∃ status, generateCostEstimate p r = Except.error (httpErrorMessage status))) ∧
    (∀ (fs : List F) (n fm : String) (r : HttpResponse ReportGenerateResponse),
      (∃ bundle, generateReport fs n fm r = Except.ok bundle) ∨
      (∃ status, generateReport fs n fm r = Except.error (httpErrorMessage status))) := by
  refine ⟨?_, ?_, ?_, ?_⟩
  · intro e m r
    cases hok : r.ok
    · exact Or.inr ⟨r.status, by simp [classifyRoomTypes, hok]⟩
    · exact Or.inl ⟨r.body, by simp [classifyRoomTypes, hok]⟩
  · intro a b r
    cases hok : r.ok
    · exact Or.inr ⟨r.status, by simp [generatePowerRequirements, hok]⟩
    · exact Or.inl ⟨r.body, by simp [generatePowerRequirements, hok]⟩
  · intro p r
    cases hok : r.ok
    · exact Or.inr ⟨r.status, by simp [generateCostEstimate, hok]⟩
    · exact Or.inl ⟨r.body, by simp [generateCostEstimate, hok]⟩
  · intro fs n fm r
    cases hok : r.ok
    · exact Or.inr ⟨r.status, by simp [generateReport, hok]⟩
    · exact Or.inl ⟨r.body, by simp [generateReport, hok]⟩

/-- Claim C4: every successful classify invocation returns an output consisting
of exactly five components: the processed artifact reference, the per-room
report reference, the classified-output reference, the row count, and the
summary message, each taken from the response body. -/
theorem classify_output_five_components {F : Type} (excelFile mappingFile : F)
    (r : HttpResponse RoomTypeClassificationData)
    (bundle : RoomTypeClassificationData)
    (h : classifyRoomTypes excelFile mappingFile r = Except.ok bundle) :
    bundle = { processed_file := bundle.processed_file
               report_csv := bundle.report_csv
               output_xlsx := bundle.output_xlsx
               rows := bundle.rows
               message := bundle.message } ∧
    bundle.processed_file = r.body.processed_file ∧
    bundle.report_csv = r.body.report_csv ∧
    bundle.output_xlsx = r.body.output_xlsx ∧
    bundle.rows = r.body.rows ∧
    bundle.message = r.body.message := by
  cases hok : r.ok <;> simp [classifyRoomTypes, hok] at h
  subst h
  exact ⟨rfl, rfl, rfl, rfl, rfl, rfl⟩

/-- Claim C4 witness: a concrete successful classify invocation. -/
theorem classify_output_five_components_witness :
    demoClassifyBody = { processed_file := demoClassifyBody.processed_file
                         report_csv := demoClassifyBody.report_csv
                         output_xlsx := demoClassifyBody.output_xlsx
                         rows := demoClassifyBody.rows
                         message := demoClassifyBody.message } ∧
    demoClassifyBody.processed_file
      = (HttpResponse.mk true 200 demoClassifyBody).body.processed_file ∧
    demoClassifyBody.report_csv
      = (HttpResponse.mk true 200 demoClassifyBody).body.report_csv ∧
    demoClassifyBody.output_xlsx
      = (HttpResponse.mk true 200 demoClassifyBody).body.output_xlsx ∧
    demoClassifyBody.rows
      = (HttpResponse.mk true 200 demoClassifyBody).body.rows ∧
    demoClassifyBody.message
      = (HttpResponse.mk true 200 demoClassifyBody).body.message :=
  classify_output_five_components "rooms.xlsx" "mapping.csv"
    (HttpResponse.mk true 200 demoClassifyBody) demoClassifyBody rfl

/-- The confident and the UNCLASSIFIED results of a run partition it. -/
theorem countConfident_add_countUnclassified (l : List ClassificationResult) :
    countConfident l + countUnclassified l = l.length := by
  induction l with
  | nil => rfl
  | cons x xs ih =>
    by_cases hx : x.typeCode = UNCLASSIFIED <;>
      simp [countConfident, countUnclassified, List.filter_cons, hx] at ih ⊢ <;>
      omega

/-- Claim C2: for every cost-estimation result, the grand total cost of the
summary equals the sum of the final prices over all produced cost line items,
within a tolerance of 1e-6 times the number of line items. -/
theorem grand_total_eq_sum_final_prices (metrics : List (String × ℚ))
    (f : ProjectFactors) (table : List CostFactorEntry) :
    |(generateCostEstimateModel metrics f table).summary.grand_total_cost
        - ((generateCostEstimateModel metrics f table).detailed_boq.map
            CostBOQItem.total_final_price).sum|
      ≤ (1 / 1000000)
          * ((generateCostEstimateModel metrics f table).detailed_boq.length : ℚ) := by
  have hsum : (generateCostEstimateModel metrics f table).summary.grand_total_cost
      = ((generateCostEstimateModel metrics f table).detailed_boq.map
          CostBOQItem.total_final_price).sum := by
    simp only [generateCostEstimateModel]
    rw [foldl_add_map_eq_sum, zero_add]
  rw [hsum, sub_self, abs_zero]
  positivity

/-- Claim C6: classification is deterministic: for a fixed catalog version and a
stubbed semantic-fallback capability, any two runs over the same input sequence
of room records produce identical sequences of classification results. -/
theorem classifyRooms_deterministic (cfg : ClassifierConfig)
    (fb : SemanticFallback) (catalog : Catalog)
    (rooms1 rooms2 : List RoomRecord) (h : rooms1 = rooms2) :
    classifyRooms cfg fb catalog rooms1 = classifyRooms cfg fb catalog rooms2 := by
  rw [h]

/-- Claim C6 witness: two runs over the concrete 52-room book coincide. -/
theorem classifyRooms_deterministic_witness :
    classifyRooms demoConfig stubFallback demoCatalog demoRooms52
      = classifyRooms demoConfig stubFallback demoCatalog demoRooms52 :=
  classifyRooms_deterministic demoConfig stubFallback demoCatalog
    demoRooms52 demoRooms52 rfl

/-- Claim C7: for a classify run over 52 input rooms of which 5 fall back to
UNCLASSIFIED, the output reports a row count of 52, and both the confident
count 47 and the unclassified count 5 are recoverable from the per-room
results. -/
theorem classify_scenario_52_47_5 (cfg : ClassifierConfig) (fb : SemanticFallback)
    (catalog : Catalog) (rooms : List RoomRecord)
    (h52 : rooms.length = 52)
    (h5 : countUnclassified (classifyRooms cfg fb catalog rooms) = 5) :
    classifyRows (classifyRooms cfg fb catalog rooms) = 52 ∧
    countConfident (classifyRooms cfg fb catalog rooms) = 47 ∧
    countUnclassified (classifyRooms cfg fb catalog rooms) = 5 := by
  have hlen : (classifyRooms cfg fb catalog rooms).length = 52 := by
    simp [classifyRooms, h52]
  have hsum := countConfident_add_countUnclassified (classifyRooms cfg fb catalog rooms)
  refine ⟨hlen, ?_, h5⟩
  omega

/-- Claim C7 witness: the concrete 52-room book with 47 synonym matches and 5
unmatched rooms yields 52 rows, 47 confident and 5 UNCLASSIFIED results. -/
theorem classify_scenario_52_47_5_witness :
    classifyRows (classifyRooms demoConfig stubFallback demoCatalog demoRooms52) = 52 ∧
    countConfident (classifyRooms demoConfig stubFallback demoCatalog demoRooms52) = 47 ∧
    countUnclassified (classifyRooms demoConfig stubFallback demoCatalog demoRooms52) = 5 :=
  classify_scenario_52_47_5 demoConfig stubFallback demoCatalog demoRooms52
    (by simp [demoRooms52])
    (by
      have ho : (classifyRoom demoConfig stubFallback demoCatalog officeRoom).typeCode
          = "001" := by decide
      have hu : (classifyRoom demoConfig stubFallback demoCatalog unknownRoom).typeCode
          = UNCLASSIFIED := by decide
      simp [countUnclassified, classifyRooms, demoRooms52, List.map_append,
        List.map_replicate, List.filter_append, List.filter_replicate, ho, hu,
        UNCLASSIFIED])
